import Mathlib

/-!
# RoadManagerDLL: the handle-based wrapper around the road manager

A shallow embedding of `EnvironmentSimulator/RoadManagerDLL/roadmanagerdll.cpp`.

* The two file-scope statics `odrManager` and `position` are the fields of `State`;
  `State.lib` is the hidden static state of the `roadmanager` library (the network
  that `Position::LoadOpenDrive` loads and `Position::GetOpenDrive` hands out).
* The classes `OpenDrive`, `Road`, `Position` of `RoadManager.hpp` are type parameters
  and their member functions are the fields of `RoadManager`; `Lane` and `LaneSection`
  are modelled from the specification.
* `int` values are integers, wrapped by `toInt32` where the source converts to `int`;
  the registry size is a natural number, and an `int` compared with it is converted to
  `size_t` by `toSizeT`.
* `double` and `float` values are the elements of two type parameters `D` and `F`. The
  floating-point operations the wrapper performs (the `(float)` casts, the passing of a
  `float` as a `double`, `1.0 / x`, `x - y`, `fabs`, `>`) are the fields of `Arith`, so
  rounding, infinities and NaN are whatever the arithmetic makes them. A property that is
  stated over exact rational arithmetic takes an exact reading `Arith.Exact` of the
  arithmetic as a hypothesis.
* A pointer that may be null is an `Option`; an operation that dereferences a null
  pointer has no result (`none`).
-/

namespace RoadManagerDLL

/-! ## Machine integers -/

/-- Conversion of an integer value to the 32-bit `int`: reduction modulo `2^32` into
`[-2^31, 2^31)`. -/
def toInt32 (n : Int) : Int := (n + 2 ^ 31) % 2 ^ 32 - 2 ^ 31

/-- Conversion of a signed value to the 64-bit unsigned `size_t`: reduction modulo
`2^64`. -/
def toSizeT (n : Int) : Nat := (n % 2 ^ 64).toNat

/-- The values an `int` argument can take. -/
def isInt32 (n : Int) : Prop := -(2 ^ 31) ≤ n ∧ n < 2 ^ 31

instance (n : Int) : Decidable (isInt32 n) :=
  inferInstanceAs (Decidable (-(2 ^ 31) ≤ n ∧ n < 2 ^ 31))

/-! ## Floating-point arithmetic -/

/-- The floating-point arithmetic of the platform, on `double` values `D` and `float`
values `F`: the constants and operations that occur in the wrapper. -/
structure Arith (D F : Type) where
  /-- The `double` value of `0`, `0.0`. -/
  zero : D
  /-- The `double` value of `1.0`. -/
  one : D
  /-- The `float` value of `0.0f`. -/
  zeroF : F
  /-- The `float` value of the `int` constant `-1`. -/
  minusOneF : F
  /-- The conversion of a `float` argument passed where a `double` is taken. -/
  widen : F → D
  /-- The cast `(float)` of a `double`. -/
  narrow : D → F
  /-- The operation `x - y` on `double`. -/
  sub : D → D → D
  /-- The operation `x / y` on `double`. -/
  div : D → D → D
  /-- The function `fabs`. -/
  fabs : D → D
  /-- The comparison `x > y` on `double`. -/
  gt : D → D → Bool

/-- Modelled from the spec: the `Lane` class is declared in `RoadManager.hpp`; a lane has
a signed integer id (`GetId`) and a drivability flag (`IsDriving`). -/
structure Lane where
  id : Int
  driving : Bool
  deriving DecidableEq

/-- Modelled from the spec: the `LaneSection` class is declared in `RoadManager.hpp`; a
lane section is an ordered sequence of lanes. -/
structure LaneSection where
  lanes : List Lane
  deriving DecidableEq

/-- Modelled from the spec: `Lane::IsDriving`, the drivability flag. -/
def Lane.IsDriving (l : Lane) : Bool := l.driving

/-- Modelled from the spec: `Lane::GetId`, the signed lane id. -/
def Lane.GetId (l : Lane) : Int := l.id

/-- Modelled from the spec: `LaneSection::GetNumberOfLanes`, the length of the lane
sequence. -/
def LaneSection.GetNumberOfLanes (ls : LaneSection) : Nat := ls.lanes.length

/-- Modelled from the spec: `LaneSection::GetLaneByIdx`, lane-by-index; a null pointer
outside the index range. -/
def LaneSection.GetLaneByIdx (ls : LaneSection) (idx : Int) : Option Lane :=
  if idx < 0 then none else ls.lanes.get? idx.toNat

/-! ## Result structures -/

namespace roadmanager

/-- The library's `SteeringTargetInfo`, with the fields the wrapper reads. -/
structure SteeringTargetInfo (D : Type) where
  local_pos : D × D × D
  global_pos : D × D × D
  angle : D
  curvature : D
  road_heading : D
  road_pitch : D
  road_roll : D
  speed_limit : D

/-- The library's `RoadLaneInfo`, with the fields the wrapper reads. -/
structure RoadLaneInfo (D : Type) where
  heading : D
  pitch : D
  roll : D
  width : D
  curvature : D
  speed_limit : D

end roadmanager

/-- The output structure of `RM_GetPositionData`. -/
structure RM_PositionData (F : Type) where
  x : F
  y : F
  z : F
  h : F
  p : F
  r : F
  hRelative : F
  roadId : Int
  laneId : Int
  laneOffset : F
  s : F
  deriving DecidableEq

/-- The output structure of `RM_GetLaneInfo`. -/
structure RM_RoadLaneInfo (F : Type) where
  pos : F × F × F
  heading : F
  pitch : F
  roll : F
  width : F
  curvature : F
  speed_limit : F
  deriving DecidableEq

/-- The output structure of `RM_GetSteeringTarget`. -/
structure RM_SteeringTargetInfo (F : Type) where
  local_pos : F × F × F
  global_pos : F × F × F
  angle : F
  curvature : F
  road_heading : F
  road_pitch : F
  road_roll : F
  speed_limit : F
  deriving DecidableEq

/-- The output structure of `RM_SubtractAFromB`. -/
structure RM_PositionDiff (F : Type) where
  ds : F
  dt : F
  dLaneId : Int
  deriving DecidableEq

/-! ## The road manager library, as seen from the wrapper -/

/-- The members of `RoadManager.hpp` and `CommonMini.hpp` that the wrapper uses. `Lib` is
the library's static state, `OpenDrive`, `Road` and `Position` are its classes, `D` is
`double`. Members that modify the position they are called on return the modified
position; whatever `SetLanePos`, `SetHeadingRelative`, `SetInertiaPos` and `XYZH2TrackPos`
return is discarded by the wrapper and is not part of their type here. -/
structure RoadManager (Lib OpenDrive Road Position D : Type) where
  /-- The macro `SMALL_NUMBER` of `CommonMini.hpp`. -/
  SMALL_NUMBER : D
  /-- The constant `M_PI`. -/
  M_PI : D
  /-- The static `Position::LoadOpenDrive`: new library state and success flag. -/
  LoadOpenDrive : Lib → String → Lib × Bool
  /-- The static `Position::GetOpenDrive`. -/
  GetOpenDrive : Lib → Option OpenDrive
  /-- The member `OpenDrive::GetNumOfRoads`. -/
  GetNumOfRoads : OpenDrive → Int
  /-- The member `OpenDrive::GetRoadByIdx`: a pointer, null when there is no such road. -/
  GetRoadByIdx : OpenDrive → Int → Option Road
  /-- The member `OpenDrive::GetRoadById`: a pointer, null when there is no such road. -/
  GetRoadById : OpenDrive → Int → Option Road
  /-- The member `Road::GetId`. -/
  GetId : Road → Int
  /-- The member `Road::GetLength`. -/
  GetLength : Road → D
  /-- The member `Road::GetLaneSectionByS`: a pointer, possibly null. -/
  GetLaneSectionByS : Road → D → Option LaneSection
  /-- The member `Road::GetLaneWidthByS`. -/
  GetLaneWidthByS : Road → D → Int → D
  /-- The member `Road::GetSpeedByS`. -/
  GetSpeedByS : Road → D → D
  /-- The default constructor of `Position`. -/
  newPosition : Position
  GetX : Position → D
  GetY : Position → D
  GetZ : Position → D
  GetH : Position → D
  GetP : Position → D
  GetR : Position → D
  GetHRelative : Position → D
  GetTrackId : Position → Int
  GetLaneId : Position → Int
  GetOffset : Position → D
  GetS : Position → D
  GetT : Position → D
  GetCurvature : Position → D
  GetSpeedLimit : Lib → Position → D
  /-- The member `Position::GetRoadById`: a pointer, null when there is no such road. -/
  Position_GetRoadById : Lib → Position → Int → Option Road
  /-- The member `Position::SetLanePos (track_id, lane_id, s, offset)`. -/
  SetLanePos : Lib → Position → Int → Int → D → D → Position
  SetHeadingRelative : Lib → Position → D → Position
  /-- The member `Position::SetInertiaPos (x, y, z, h, p, r)`. -/
  SetInertiaPos : Lib → Position → D → D → D → D → D → D → Position
  /-- The member `Position::XYZH2TrackPos (x, y, z, h, flag)`. -/
  XYZH2TrackPos : Lib → Position → D → D → D → D → Bool → Position
  /-- The member `Position::MoveAlongS (ds, dLaneOffset, strategy)`: the moved position
  and the returned status. -/
  MoveAlongS : Lib → Position → D → D → Int → Position × Int
  /-- The member `Position::GetSteeringTargetInfo (lookahead, &data, along_reference_lane)`:
  the returned status and the contents of `data` after the call. -/
  GetSteeringTargetInfo :
    Lib → Position → D → Bool → Int × roadmanager.SteeringTargetInfo D
  /-- The member `Position::GetRoadLaneInfo (lookahead, &data)`, called on a copy: the
  copy after the call and the contents of `data` after the call. -/
  GetRoadLaneInfo : Lib → Position → D → Position × roadmanager.RoadLaneInfo D
  /-- The member `Position::Delta (pos_b, ds, dt, dl)` with the incoming values of the
  three reference arguments: the returned flag and their values after the call. -/
  Delta : Lib → Position → Position → D → D → Int → Bool × D × D × Int

/-! ## The wrapper state -/

/-- The statics of the wrapper, `odrManager` and `position`, and the library state. -/
structure State (Lib OpenDrive Position : Type) where
  odrManager : Option OpenDrive
  position : List Position
  lib : Lib

section Wrapper

variable {Lib OpenDrive Road Position D F : Type}

/-- The guard `odrManager == 0 || handle >= position.size()`; the comparison converts the
`int` handle to `size_t`. -/
def State.noAccess (st : State Lib OpenDrive Position) (handle : Int) : Prop :=
  st.odrManager.isNone = true ∨ st.position.length ≤ toSizeT handle

instance (st : State Lib OpenDrive Position) (handle : Int) : Decidable (st.noAccess handle) :=
  inferInstanceAs
    (Decidable (st.odrManager.isNone = true ∨ st.position.length ≤ toSizeT handle))

/-- The registry access `position[handle]` behind a guard that did not fire. -/
def State.at (st : State Lib OpenDrive Position) (handle : Int)
    (h : ¬ st.position.length ≤ toSizeT handle) : Position :=
  st.position.get ⟨toSizeT handle, Nat.lt_of_not_le h⟩

/-- Assignment through `&position[handle]`. -/
def State.put (st : State Lib OpenDrive Position) (handle : Int) (p : Position) :
    State Lib OpenDrive Position :=
  { st with position := st.position.set (toSizeT handle) p }

/-- The cast `(float)` applied to each element of a `double[3]`. -/
def Arith.narrow3 (A : Arith D F) (v : D × D × D) : F × F × F :=
  (A.narrow v.1, A.narrow v.2.1, A.narrow v.2.2)

/-! ## The static helpers -/

/-- The static helper `GetSteeringTarget (index, lookahead_distance, r_data,
along_reference_lane)`: the returned value and the contents of `r_data` afterwards. -/
def GetSteeringTarget (A : Arith D F) (E : RoadManager Lib OpenDrive Road Position D)
    (st : State Lib OpenDrive Position) (index : Int) (lookahead_distance : F)
    (r_data : RM_SteeringTargetInfo F) (along_reference_lane : Bool) :
    Int × RM_SteeringTargetInfo F :=
  if st.odrManager.isNone = true then (-1, r_data)
  else if h : st.position.length ≤ toSizeT index then (-1, r_data)
  else
    let res := E.GetSteeringTargetInfo st.lib (st.at index h) (A.widen lookahead_distance)
      along_reference_lane
    let s_data := res.2
    if res.1 ≠ 0 then (-1, r_data)
    else
      (0, { local_pos := A.narrow3 s_data.local_pos
            global_pos := A.narrow3 s_data.global_pos
            angle := A.narrow s_data.angle
            curvature := A.narrow s_data.curvature
            road_heading := A.narrow s_data.road_heading
            road_pitch := A.narrow s_data.road_pitch
            road_roll := A.narrow s_data.road_roll
            speed_limit := A.narrow s_data.speed_limit })

/-- The static helper `GetRoadLaneInfo (index, lookahead_distance, r_data)`: the returned
value and the contents of `r_data` afterwards. -/
def GetRoadLaneInfo (A : Arith D F) (E : RoadManager Lib OpenDrive Road Position D)
    (st : State Lib OpenDrive Position) (index : Int) (lookahead_distance : F)
    (r_data : RM_RoadLaneInfo F) : Int × RM_RoadLaneInfo F :=
  if st.odrManager.isNone = true then (-1, r_data)
  else if h : st.position.length ≤ toSizeT index then (-1, r_data)
  else
    let res := E.GetRoadLaneInfo st.lib (st.at index h) (A.widen lookahead_distance)
    let pos := res.1
    let s_data := res.2
    (0, { pos := (A.narrow (E.GetX pos), A.narrow (E.GetY pos), A.narrow (E.GetZ pos))
          heading := A.narrow s_data.heading
          pitch := A.narrow s_data.pitch
          roll := A.narrow s_data.roll
          width := A.narrow s_data.width
          curvature := A.narrow s_data.curvature
          speed_limit := A.narrow s_data.speed_limit })

/-! ## The exported functions -/

/-- The function `RM_Close`: clears the registry. -/
def RM_Close (st : State Lib OpenDrive Position) : State Lib OpenDrive Position × Int :=
  ({ st with position := [] }, 0)

/-- The function `RM_Init (odrFilename)`. -/
def RM_Init (E : RoadManager Lib OpenDrive Road Position D)
    (st : State Lib OpenDrive Position) (odrFilename : String) :
    State Lib OpenDrive Position × Int :=
  let st1 := if st.odrManager.isSome = true then (RM_Close st).1 else st
  let loaded := E.LoadOpenDrive st1.lib odrFilename
  if loaded.2 = false then ({ st1 with lib := loaded.1 }, -1)
  else ({ st1 with lib := loaded.1, odrManager := E.GetOpenDrive loaded.1 }, 0)

/-- The function `RM_CreatePosition`: appends a default-constructed position and returns
`(int)(position.size() - 1)`. -/
def RM_CreatePosition (E : RoadManager Lib OpenDrive Road Position D)
    (st : State Lib OpenDrive Position) : State Lib OpenDrive Position × Int :=
  let position := st.position ++ [E.newPosition]
  ({ st with position := position }, toInt32 (Int.ofNat (position.length - 1)))

/-- The function `RM_GetNumberOfRoads`. -/
def RM_GetNumberOfRoads (E : RoadManager Lib OpenDrive Road Position D)
    (st : State Lib OpenDrive Position) : Int :=
  match st.odrManager with
  | some odr => E.GetNumOfRoads odr
  | none => 0

/-- The function `RM_GetIdOfRoadFromIndex (index)`; no result when `GetRoadByIdx` yields
the null pointer. -/
def RM_GetIdOfRoadFromIndex (E : RoadManager Lib OpenDrive Road Position D)
    (st : State Lib OpenDrive Position) (index : Int) : Option Int :=
  match st.odrManager with
  | some odr =>
    match E.GetRoadByIdx odr index with
    | some road => some (E.GetId road)
    | none => none
  | none => some (-1)

/-- The function `RM_GetRoadLength (id)`; no result when `GetRoadById` yields the null
pointer. -/
def RM_GetRoadLength (A : Arith D F) (E : RoadManager Lib OpenDrive Road Position D)
    (st : State Lib OpenDrive Position) (id : Int) : Option F :=
  match st.odrManager with
  | some odr =>
    match E.GetRoadById odr id with
    | some road => some (A.narrow (E.GetLength road))
    | none => none
  | none => some A.zeroF

/-- The loop of `RM_GetRoadNumberOfLanes`, with `todo` iterations left, at loop index `i`
(a `size_t` value) and counter value `numberOfDrivableLanes`. -/
def countDrivable (laneSection : LaneSection) : Nat → Int → Int → Option Int
  | 0, _, numberOfDrivableLanes => some numberOfDrivableLanes
  | todo + 1, i, numberOfDrivableLanes =>
    match laneSection.GetLaneByIdx (toInt32 i) with
    | none => none
    | some lane =>
      if lane.IsDriving = true then
        countDrivable laneSection todo (i + 1) (toInt32 (numberOfDrivableLanes + 1))
      else countDrivable laneSection todo (i + 1) numberOfDrivableLanes

/-- The function `RM_GetRoadNumberOfLanes (roadId, s)`; no result when a null pointer is
dereferenced. -/
def RM_GetRoadNumberOfLanes (A : Arith D F) (E : RoadManager Lib OpenDrive Road Position D)
    (st : State Lib OpenDrive Position) (roadId : Int) (s : F) : Option Int :=
  match st.odrManager with
  | some odr =>
    match E.GetRoadById odr roadId with
    | none => none
    | some road =>
      match E.GetLaneSectionByS road (A.widen s) with
      | none => none
      | some laneSection =>
        countDrivable laneSection (laneSection.GetNumberOfLanes - 0) 0 0
  | none => some 0

/-- The loop of `RM_GetLaneIdByIndex`, with `todo` iterations left, at loop index `i` (a
`size_t` value) and counter value `numberOfDrivableLanes`; falls through to `return 0`. -/
def findDrivable (laneSection : LaneSection) (laneIndex : Int) : Nat → Int → Int → Option Int
  | 0, _, _ => some 0
  | todo + 1, i, numberOfDrivableLanes =>
    match laneSection.GetLaneByIdx (toInt32 i) with
    | none => none
    | some lane =>
      if lane.IsDriving = true then
        if numberOfDrivableLanes = laneIndex then some lane.GetId
        else findDrivable laneSection laneIndex todo (i + 1) (toInt32 (numberOfDrivableLanes + 1))
      else findDrivable laneSection laneIndex todo (i + 1) numberOfDrivableLanes

/-- The function `RM_GetLaneIdByIndex (roadId, laneIndex, s)`; no result when a null
pointer is dereferenced. -/
def RM_GetLaneIdByIndex (A : Arith D F) (E : RoadManager Lib OpenDrive Road Position D)
    (st : State Lib OpenDrive Position) (roadId : Int) (laneIndex : Int) (s : F) :
    Option Int :=
  match st.odrManager with
  | some odr =>
    match E.GetRoadById odr roadId with
    | none => none
    | some road =>
      match E.GetLaneSectionByS road (A.widen s) with
      | none => none
      | some laneSection =>
        findDrivable laneSection laneIndex (laneSection.GetNumberOfLanes - 0) 0 0
  | none => some 0

/-- The function `RM_SetLanePosition (handle, roadId, laneId, laneOffset, s, align)`. -/
def RM_SetLanePosition (A : Arith D F) (E : RoadManager Lib OpenDrive Road Position D)
    (st : State Lib OpenDrive Position) (handle roadId laneId : Int) (laneOffset s : F)
    (align : Bool) : State Lib OpenDrive Position × Int :=
  if h : st.noAccess handle then (st, -1)
  else
    let pos := E.SetLanePos st.lib (st.at handle (fun hh => h (Or.inr hh))) roadId laneId
      (A.widen s) (A.widen laneOffset)
    let pos :=
      if align = true then
        if laneId < 0 then E.SetHeadingRelative st.lib pos A.zero
        else E.SetHeadingRelative st.lib pos E.M_PI
      else pos
    (st.put handle pos, 0)

/-- The function `RM_SetWorldPosition (handle, x, y, z, h, p, r)`. -/
def RM_SetWorldPosition (A : Arith D F) (E : RoadManager Lib OpenDrive Road Position D)
    (st : State Lib OpenDrive Position) (handle : Int) (x y z h p r : F) :
    State Lib OpenDrive Position × Int :=
  if hg : st.noAccess handle then (st, -1)
  else
    let pos := E.SetInertiaPos st.lib (st.at handle (fun hh => hg (Or.inr hh))) (A.widen x)
      (A.widen y) (A.widen z) (A.widen h) (A.widen p) (A.widen r)
    (st.put handle pos, 0)

/-- The function `RM_SetWorldXYZHPosition (handle, x, y, z, h)`. -/
def RM_SetWorldXYZHPosition (A : Arith D F) (E : RoadManager Lib OpenDrive Road Position D)
    (st : State Lib OpenDrive Position) (handle : Int) (x y z h : F) :
    State Lib OpenDrive Position × Int :=
  if hg : st.noAccess handle then (st, -1)
  else
    let pos := E.XYZH2TrackPos st.lib (st.at handle (fun hh => hg (Or.inr hh))) (A.widen x)
      (A.widen y) (A.widen z) (A.widen h) true
    (st.put handle pos, 0)

/-- The function `RM_SetS (handle, s)`. -/
def RM_SetS (A : Arith D F) (E : RoadManager Lib OpenDrive Road Position D)
    (st : State Lib OpenDrive Position) (handle : Int) (s : F) :
    State Lib OpenDrive Position × Int :=
  if hg : st.noAccess handle then (st, -1)
  else
    let pos := st.at handle (fun hh => hg (Or.inr hh))
    let pos := E.SetLanePos st.lib pos (E.GetTrackId pos) (E.GetLaneId pos) (A.widen s)
      (E.GetOffset pos)
    (st.put handle pos, 0)

/-- The function `RM_PositionMoveForward (handle, dist, strategy)`. -/
def RM_PositionMoveForward (A : Arith D F) (E : RoadManager Lib OpenDrive Road Position D)
    (st : State Lib OpenDrive Position) (handle : Int) (dist : F) (strategy : Int) :
    State Lib OpenDrive Position × Int :=
  if hg : st.noAccess handle then (st, -1)
  else
    let res := E.MoveAlongS st.lib (st.at handle (fun hh => hg (Or.inr hh))) (A.widen dist)
      A.zero strategy
    (st.put handle res.1, res.2)

/-- The function `RM_GetPositionData (handle, data)`: the returned value and the contents
of `data` afterwards. -/
def RM_GetPositionData (A : Arith D F) (E : RoadManager Lib OpenDrive Road Position D)
    (st : State Lib OpenDrive Position) (handle : Int) (data : RM_PositionData F) :
    Int × RM_PositionData F :=
  if hg : st.noAccess handle then (-1, data)
  else
    let pos := st.at handle (fun hh => hg (Or.inr hh))
    (0, { x := A.narrow (E.GetX pos)
          y := A.narrow (E.GetY pos)
          z := A.narrow (E.GetZ pos)
          h := A.narrow (E.GetH pos)
          p := A.narrow (E.GetP pos)
          r := A.narrow (E.GetR pos)
          hRelative := A.narrow (E.GetHRelative pos)
          roadId := E.GetTrackId pos
          laneId := E.GetLaneId pos
          laneOffset := A.narrow (E.GetOffset pos)
          s := A.narrow (E.GetS pos) })

/-- The function `RM_GetLaneInfo (handle, lookahead_distance, data)`: the returned value
and the contents of `data` afterwards; no result when `Position::GetRoadById` yields the
null pointer. -/
def RM_GetLaneInfo (A : Arith D F) (E : RoadManager Lib OpenDrive Road Position D)
    (st : State Lib OpenDrive Position) (handle : Int) (lookahead_distance : F)
    (data : RM_RoadLaneInfo F) : Option (Int × RM_RoadLaneInfo F) :=
  if hg : st.noAccess handle then some (-1, data)
  else
    let data := (GetRoadLaneInfo A E st handle lookahead_distance data).2
    let pos := st.at handle (fun hh => hg (Or.inr hh))
    let ref_curvature := E.GetCurvature pos
    let lat_offset := E.GetT pos
    let data :=
      if A.gt (A.fabs ref_curvature) E.SMALL_NUMBER = true then
        let radius := A.div A.one ref_curvature
        let radius := A.sub radius lat_offset
        { data with curvature := A.narrow (A.div A.one radius) }
      else { data with curvature := A.narrow ref_curvature }
    match E.Position_GetRoadById st.lib pos (E.GetTrackId pos) with
    | none => none
    | some road =>
      let data :=
        { data with width := A.narrow (E.GetLaneWidthByS road (E.GetS pos) (E.GetLaneId pos)) }
      some (0, { data with speed_limit := A.narrow (E.GetSpeedByS road (E.GetS pos)) })

/-- The function `RM_GetSpeedLimit (handle)`. -/
def RM_GetSpeedLimit (A : Arith D F) (E : RoadManager Lib OpenDrive Road Position D)
    (st : State Lib OpenDrive Position) (handle : Int) : F :=
  if hg : st.noAccess handle then A.minusOneF
  else A.narrow (E.GetSpeedLimit st.lib (st.at handle (fun hh => hg (Or.inr hh))))

/-- The function `RM_GetSteeringTarget (handle, lookahead_distance, data,
along_reference_lane)`: the returned value and the contents of `data` afterwards. -/
def RM_GetSteeringTarget (A : Arith D F) (E : RoadManager Lib OpenDrive Road Position D)
    (st : State Lib OpenDrive Position) (handle : Int) (lookahead_distance : F)
    (data : RM_SteeringTargetInfo F) (along_reference_lane : Int) :
    Int × RM_SteeringTargetInfo F :=
  if st.noAccess handle then (-1, data)
  else
    let res := GetSteeringTarget A E st handle lookahead_distance data
      (decide (along_reference_lane ≠ 0))
    if res.1 ≠ 0 then (-1, res.2) else (0, res.2)

/-- The function `RM_SubtractAFromB (handleA, handleB, pos_diff)`: the returned flag and
the contents of `pos_diff` afterwards. -/
def RM_SubtractAFromB (A : Arith D F) (E : RoadManager Lib OpenDrive Road Position D)
    (st : State Lib OpenDrive Position) (handleA handleB : Int)
    (pos_diff : RM_PositionDiff F) : Bool × RM_PositionDiff F :=
  if hg : st.odrManager.isNone = true ∨ st.position.length ≤ toSizeT handleA ∨
      st.position.length ≤ toSizeT handleB then (false, pos_diff)
  else
    let res := E.Delta st.lib (st.at handleA (fun hh => hg (Or.inr (Or.inl hh))))
      (st.at handleB (fun hh => hg (Or.inr (Or.inr hh)))) A.zero A.zero 0
    let result := res.1
    if result = true then
      (result, { ds := A.narrow res.2.1, dt := A.narrow res.2.2.1, dLaneId := res.2.2.2 })
    else (result, pos_diff)

end Wrapper

/-! ## Sequences of calls -/

/-- A call of one of the exported functions, with its arguments (for an output pointer,
the contents of the structure it points to). -/
inductive Call (F : Type) where
  | Init (odrFilename : String)
  | Close
  | CreatePosition
  | GetNumberOfRoads
  | GetIdOfRoadFromIndex (index : Int)
  | GetRoadLength (id : Int)
  | GetRoadNumberOfLanes (roadId : Int) (s : F)
  | GetLaneIdByIndex (roadId laneIndex : Int) (s : F)
  | SetLanePosition (handle roadId laneId : Int) (laneOffset s : F) (align : Bool)
  | SetWorldPosition (handle : Int) (x y z h p r : F)
  | SetWorldXYZHPosition (handle : Int) (x y z h : F)
  | SetS (handle : Int) (s : F)
  | PositionMoveForward (handle : Int) (dist : F) (strategy : Int)
  | GetPositionData (handle : Int) (data : RM_PositionData F)
  | GetLaneInfo (handle : Int) (lookahead_distance : F) (data : RM_RoadLaneInfo F)
  | GetSpeedLimit (handle : Int)
  | GetSteeringTarget (handle : Int) (lookahead_distance : F) (data : RM_SteeringTargetInfo F)
      (along_reference_lane : Int)
  | SubtractAFromB (handleA handleB : Int) (pos_diff : RM_PositionDiff F)

/-- The handles a call takes. -/
def Call.handles {F : Type} : Call F → List Int
  | .SetLanePosition handle _ _ _ _ _ => [handle]
  | .SetWorldPosition handle _ _ _ _ _ _ => [handle]
  | .SetWorldXYZHPosition handle _ _ _ _ => [handle]
  | .SetS handle _ => [handle]
  | .PositionMoveForward handle _ _ => [handle]
  | .GetPositionData handle _ => [handle]
  | .GetLaneInfo handle _ _ => [handle]
  | .GetSpeedLimit handle => [handle]
  | .GetSteeringTarget handle _ _ _ => [handle]
  | .SubtractAFromB handleA handleB _ => [handleA, handleB]
  | _ => []

/-- Whether the call is `RM_Init` or `RM_Close`. -/
def Call.clears {F : Type} : Call F → Bool
  | .Init _ => true
  | .Close => true
  | _ => false

/-- Whether the call is `RM_CreatePosition`. -/
def Call.creates {F : Type} : Call F → Bool
  | .CreatePosition => true
  | _ => false

section Run

variable {Lib OpenDrive Road Position D F : Type}

/-- The wrapper state after a call; `none` when the call dereferences a null pointer. -/
def step (A : Arith D F) (E : RoadManager Lib OpenDrive Road Position D)
    (st : State Lib OpenDrive Position) : Call F → Option (State Lib OpenDrive Position)
  | .Init odrFilename => some (RM_Init E st odrFilename).1
  | .Close => some (RM_Close st).1
  | .CreatePosition => some (RM_CreatePosition E st).1
  | .GetNumberOfRoads => some st
  | .GetIdOfRoadFromIndex index => (RM_GetIdOfRoadFromIndex E st index).map fun _ => st
  | .GetRoadLength id => (RM_GetRoadLength A E st id).map fun _ => st
  | .GetRoadNumberOfLanes roadId s => (RM_GetRoadNumberOfLanes A E st roadId s).map fun _ => st
  | .GetLaneIdByIndex roadId laneIndex s =>
    (RM_GetLaneIdByIndex A E st roadId laneIndex s).map fun _ => st
  | .SetLanePosition handle roadId laneId laneOffset s align =>
    some (RM_SetLanePosition A E st handle roadId laneId laneOffset s align).1
  | .SetWorldPosition handle x y z h p r =>
    some (RM_SetWorldPosition A E st handle x y z h p r).1
  | .SetWorldXYZHPosition handle x y z h =>
    some (RM_SetWorldXYZHPosition A E st handle x y z h).1
  | .SetS handle s => some (RM_SetS A E st handle s).1
  | .PositionMoveForward handle dist strategy =>
    some (RM_PositionMoveForward A E st handle dist strategy).1
  | .GetPositionData _ _ => some st
  | .GetLaneInfo handle lookahead_distance data =>
    (RM_GetLaneInfo A E st handle lookahead_distance data).map fun _ => st
  | .GetSpeedLimit _ => some st
  | .GetSteeringTarget _ _ _ _ => some st
  | .SubtractAFromB _ _ _ => some st

/-- The wrapper state after a sequence of calls; `none` when one of them dereferences a
null pointer. -/
def run (A : Arith D F) (E : RoadManager Lib OpenDrive Road Position D) :
    State Lib OpenDrive Position → List (Call F) → Option (State Lib OpenDrive Position)
  | st, [] => some st
  | st, c :: cs =>
    match step A E st c with
    | none => none
    | some st1 => run A E st1 cs

/-- The values returned by the `RM_CreatePosition` calls of a sequence of calls, in the
order of the calls, up to the first call that dereferences a null pointer. -/
def createdHandles (A : Arith D F) (E : RoadManager Lib OpenDrive Road Position D) :
    State Lib OpenDrive Position → List (Call F) → List Int
  | _, [] => []
  | st, c :: cs =>
    match step A E st c with
    | none => []
    | some st1 =>
      if c.creates = true then (RM_CreatePosition E st).2 :: createdHandles A E st1 cs
      else createdHandles A E st1 cs

end Run

/-! ## A small road manager to evaluate the wrapper on -/

namespace Demo

/-- A value of the demonstration arithmetic: a rational number, or a value that is not
finite (an infinity or a NaN). -/
inductive Number where
  | finite (q : ℚ)
  | notFinite
  deriving DecidableEq

instance (n : Nat) : OfNat Number n := ⟨Number.finite n⟩

/-- Addition without rounding. -/
def add : Number → Number → Number
  | .finite a, .finite b => .finite (a + b)
  | _, _ => .notFinite

/-- Subtraction without rounding. -/
def sub : Number → Number → Number
  | .finite a, .finite b => .finite (a - b)
  | _, _ => .notFinite

/-- Division without rounding; a finite value divided by zero is not finite. -/
def div : Number → Number → Number
  | .finite a, .finite b => if b = 0 then .notFinite else .finite (a / b)
  | .finite _, .notFinite => .finite 0
  | .notFinite, _ => .notFinite

/-- The demonstration arithmetic: `double` and `float` are both `Number`, the conversions
between them are the identity and no operation rounds. -/
def arith : Arith Number Number where
  zero := 0
  one := 1
  zeroF := 0
  minusOneF := .finite (-1)
  widen := fun x => x
  narrow := fun x => x
  sub := sub
  div := div
  fabs := fun x =>
    match x with
    | .finite a => .finite |a|
    | .notFinite => .notFinite
  gt := fun x y =>
    match x, y with
    | .finite a, .finite b => decide (b < a)
    | _, _ => false

/-- A road of the demonstration network. -/
structure Road where
  id : Int
  length : ℚ
  curvature : ℚ
  laneSection : LaneSection

/-- A position of the demonstration library; `trackId = -1` without road association. -/
structure Position where
  trackId : Int
  laneId : Int
  s : Number
  t : Number
  curvature : Number
  deriving DecidableEq

/-- The lane section of the specification scenario: lanes -2 (driving), -1 (not driving),
0 (reference), 1 (driving). -/
def scenarioSection : LaneSection :=
  ⟨[⟨-2, true⟩, ⟨-1, false⟩, ⟨0, false⟩, ⟨1, true⟩]⟩

/-- The demonstration network: road 1 (length 100, curvature 1/50) and road 2 (length 50,
curvature 1/10^11), both with the lane section of the scenario. -/
def network : List Road :=
  [⟨1, 100, 1 / 50, scenarioSection⟩, ⟨2, 50, 1 / 100000000000, scenarioSection⟩]

/-- Road lookup by id in a list of roads. -/
def roadById (net : List Road) (id : Int) : Option Road :=
  net.find? fun road => decide (road.id = id)

/-- A road manager over lists of roads: track positions only, every world-to-track
projection fails and leaves the position as it is. -/
def manager : RoadManager (List Road) (List Road) Road Position Number where
  SMALL_NUMBER := .finite (1 / 10000000000)
  M_PI := .finite (355 / 113)
  LoadOpenDrive := fun lib odrFilename =>
    if odrFilename = "demo.xodr" then (network, true) else (lib, false)
  GetOpenDrive := fun lib => some lib
  GetNumOfRoads := fun odr => odr.length
  GetRoadByIdx := fun odr idx => if idx < 0 then none else odr.get? idx.toNat
  GetRoadById := roadById
  GetId := fun road => road.id
  GetLength := fun road => .finite road.length
  GetLaneSectionByS := fun road _ => some road.laneSection
  GetLaneWidthByS := fun _ _ laneId => if laneId = 0 then 0 else 3
  GetSpeedByS := fun _ _ => 25
  newPosition := ⟨-1, 0, 0, 0, 0⟩
  GetX := fun pos => pos.s
  GetY := fun pos => pos.t
  GetZ := fun _ => 0
  GetH := fun _ => 0
  GetP := fun _ => 0
  GetR := fun _ => 0
  GetHRelative := fun _ => 0
  GetTrackId := fun pos => pos.trackId
  GetLaneId := fun pos => pos.laneId
  GetOffset := fun pos => pos.t
  GetS := fun pos => pos.s
  GetT := fun pos => pos.t
  GetCurvature := fun pos => pos.curvature
  GetSpeedLimit := fun _ _ => 25
  Position_GetRoadById := fun lib _ id => roadById lib id
  SetLanePos := fun lib pos roadId laneId s offset =>
    match roadById lib roadId with
    | some road => ⟨roadId, laneId, s, offset, .finite road.curvature⟩
    | none => pos
  SetHeadingRelative := fun _ pos _ => pos
  SetInertiaPos := fun _ pos _ _ _ _ _ _ => pos
  XYZH2TrackPos := fun _ pos _ _ _ _ _ => pos
  MoveAlongS := fun _ pos ds _ _ => ({ pos with s := add pos.s ds }, 0)
  GetSteeringTargetInfo := fun lib pos lookahead _ =>
    (if (roadById lib pos.trackId).isSome = true then 0 else -1,
      ⟨(lookahead, 0, 0), (add pos.s lookahead, pos.t, 0), 0, pos.curvature, 0, 0, 0, 25⟩)
  GetRoadLaneInfo := fun _ pos lookahead =>
    ({ pos with s := add pos.s lookahead }, ⟨0, 0, 0, 3, pos.curvature, 25⟩)
  Delta := fun _ posA posB ds dt dl =>
    if posA.trackId = posB.trackId then
      (true, sub posA.s posB.s, sub posA.t posB.t, posA.laneId - posB.laneId)
    else (false, ds, dt, dl)

/-- The state before any call: nothing loaded, no position. -/
def initial : State (List Road) (List Road) Position := ⟨none, [], []⟩

/-- The state with the demonstration network loaded and no position. -/
def loaded : State (List Road) (List Road) Position := ⟨some network, [], network⟩

/-- A loaded state with three positions: on road 1 at offset 2, without road association,
and on road 2 (curvature below the threshold) at offset 1. -/
def three : State (List Road) (List Road) Position :=
  ⟨some network,
    [⟨1, -2, 10, 2, .finite (1 / 50)⟩, ⟨-1, 0, 0, 0, 0⟩,
      ⟨2, 1, 5, 1, .finite (1 / 100000000000)⟩],
    network⟩

/-- A loaded state with `n` positions without road association. -/
def crowded (n : Nat) : State (List Road) (List Road) Position :=
  ⟨some network, List.replicate n ⟨-1, 0, 0, 0, 0⟩, network⟩

end Demo

/-! ## Specification predicates -/

section Predicates

variable {Lib OpenDrive Road Position D F : Type}

/-- The handle is rejected in this state: every handle-taking function called with it, and
both static helpers, return the failure value (`-1`, as a `float` for `RM_GetSpeedLimit`,
or `false` for `RM_SubtractAFromB` with the handle on either side), write nothing through
the output pointer, and leave the wrapper state as it is. -/
def Rejected (A : Arith D F) (E : RoadManager Lib OpenDrive Road Position D)
    (st : State Lib OpenDrive Position) (handle : Int) : Prop :=
  (∀ roadId laneId laneOffset s align,
    RM_SetLanePosition A E st handle roadId laneId laneOffset s align = (st, -1)) ∧
  (∀ x y z h p r, RM_SetWorldPosition A E st handle x y z h p r = (st, -1)) ∧
  (∀ x y z h, RM_SetWorldXYZHPosition A E st handle x y z h = (st, -1)) ∧
  (∀ s, RM_SetS A E st handle s = (st, -1)) ∧
  (∀ dist strategy, RM_PositionMoveForward A E st handle dist strategy = (st, -1)) ∧
  (∀ data, RM_GetPositionData A E st handle data = (-1, data)) ∧
  (∀ lookahead data, RM_GetLaneInfo A E st handle lookahead data = some (-1, data)) ∧
  (∀ lookahead data along,
    RM_GetSteeringTarget A E st handle lookahead data along = (-1, data)) ∧
  RM_GetSpeedLimit A E st handle = A.minusOneF ∧
  (∀ other pos_diff, RM_SubtractAFromB A E st handle other pos_diff = (false, pos_diff) ∧
    RM_SubtractAFromB A E st other handle pos_diff = (false, pos_diff)) ∧
  (∀ lookahead data along, GetSteeringTarget A E st handle lookahead data along = (-1, data)) ∧
  (∀ lookahead data, GetRoadLaneInfo A E st handle lookahead data = (-1, data)) ∧
  (∀ c : Call F, handle ∈ c.handles → step A E st c = some st)

end Predicates

/-- The drivable lanes of a lane section, in the order of the lane section. -/
def LaneSection.drivable (ls : LaneSection) : List Lane :=
  ls.lanes.filter fun lane => lane.IsDriving

/-! ## Machine integer facts -/

theorem toSizeT_of_nonneg (n : Int) (h0 : 0 ≤ n) (h1 : n < 2 ^ 64) : toSizeT n = n.toNat := by
  unfold toSizeT
  rw [Int.emod_eq_of_lt h0 h1]

theorem toSizeT_of_neg (n : Int) (h0 : -(2 ^ 64) ≤ n) (h1 : n < 0) :
    (toSizeT n : Int) = n + 2 ^ 64 := by
  unfold toSizeT
  have h : n % 2 ^ 64 = n + 2 ^ 64 := by
    rw [← Int.add_emod_self]
    exact Int.emod_eq_of_lt (by omega) (by omega)
  rw [h]
  omega

theorem toInt32_of_isInt32 (n : Int) (h : isInt32 n) : toInt32 n = n := by
  unfold toInt32
  unfold isInt32 at h
  rw [Int.emod_eq_of_lt (by omega) (by omega)]
  omega

/-! ## Rejection of a handle by the guard -/

section Guard

variable {Lib OpenDrive Road Position D F : Type}

theorem rejected_of_guard (A : Arith D F) (E : RoadManager Lib OpenDrive Road Position D)
    (st : State Lib OpenDrive Position) (handle : Int)
    (hg : st.odrManager.isNone = true ∨ st.position.length ≤ toSizeT handle) :
    Rejected A E st handle := by
  have hn : st.noAccess handle := hg
  have hs : ∀ (lookahead : F) (data : RM_SteeringTargetInfo F) (along : Bool),
      GetSteeringTarget A E st handle lookahead data along = (-1, data) := by
    intro lookahead data along
    unfold GetSteeringTarget
    rcases hg with h | h
    · simp [h]
    · by_cases h0 : st.odrManager.isNone = true
      · simp [h0]
      · simp [h0, h]
  have hr : ∀ (lookahead : F) (data : RM_RoadLaneInfo F),
      GetRoadLaneInfo A E st handle lookahead data = (-1, data) := by
    intro lookahead data
    unfold GetRoadLaneInfo
    rcases hg with h | h
    · simp [h]
    · by_cases h0 : st.odrManager.isNone = true
      · simp [h0]
      · simp [h0, h]
  have hsub : ∀ other pos_diff,
      RM_SubtractAFromB A E st handle other pos_diff = (false, pos_diff) ∧
      RM_SubtractAFromB A E st other handle pos_diff = (false, pos_diff) := by
    intro other pos_diff
    constructor
    · unfold RM_SubtractAFromB
      rw [dif_pos]
      rcases hg with h | h
      · exact Or.inl h
      · exact Or.inr (Or.inl h)
    · unfold RM_SubtractAFromB
      rw [dif_pos]
      rcases hg with h | h
      · exact Or.inl h
      · exact Or.inr (Or.inr h)
  refine ⟨?_, ?_, ?_, ?_, ?_, ?_, ?_, ?_, ?_, hsub, hs, hr, ?_⟩
  · intros; unfold RM_SetLanePosition; rw [dif_pos hn]
  · intros; unfold RM_SetWorldPosition; rw [dif_pos hn]
  · intros; unfold RM_SetWorldXYZHPosition; rw [dif_pos hn]
  · intros; unfold RM_SetS; rw [dif_pos hn]
  · intros; unfold RM_PositionMoveForward; rw [dif_pos hn]
  · intros; unfold RM_GetPositionData; rw [dif_pos hn]
  · intros; unfold RM_GetLaneInfo; rw [dif_pos hn]
  · intros; unfold RM_GetSteeringTarget; rw [if_pos hn]
  · unfold RM_GetSpeedLimit; rw [dif_pos hn]
  · intro c hc
    cases c <;> simp only [Call.handles, List.mem_cons, List.mem_singleton, List.not_mem_nil,
      or_false] at hc
    case SetLanePosition => subst hc; simp only [step]; unfold RM_SetLanePosition; rw [dif_pos hn]
    case SetWorldPosition => subst hc; simp only [step]; unfold RM_SetWorldPosition; rw [dif_pos hn]
    case SetWorldXYZHPosition =>
      subst hc; simp only [step]; unfold RM_SetWorldXYZHPosition; rw [dif_pos hn]
    case SetS => subst hc; simp only [step]; unfold RM_SetS; rw [dif_pos hn]
    case PositionMoveForward =>
      subst hc; simp only [step]; unfold RM_PositionMoveForward; rw [dif_pos hn]
    case GetPositionData => rfl
    case GetLaneInfo =>
      subst hc; simp only [step]; unfold RM_GetLaneInfo; rw [dif_pos hn]; rfl
    case GetSpeedLimit => rfl
    case GetSteeringTarget => rfl
    case SubtractAFromB => rfl


/-- C1: for every wrapper state and every `int` handle that is at least the registry size,
the handle is rejected: `RM_SetLanePosition`, `RM_SetWorldPosition`,
`RM_SetWorldXYZHPosition`, `RM_SetS`, `RM_PositionMoveForward`, `RM_GetPositionData`,
`RM_GetLaneInfo`, `RM_GetSteeringTarget` and `RM_GetSpeedLimit` return `-1`,
`RM_SubtractAFromB` returns `false` with the handle on either side, and the wrapper state
(the registry with it) is unchanged. -/
theorem handle_beyond_registry_rejected (A : Arith D F)
    (E : RoadManager Lib OpenDrive Road Position D)
    (st : State Lib OpenDrive Position) (handle : Int) (hint : isInt32 handle)
    (hge : (st.position.length : Int) ≤ handle) : Rejected A E st handle := by
  apply rejected_of_guard
  right
  unfold isInt32 at hint
  rw [toSizeT_of_nonneg handle (by omega) (by omega)]
  omega

/-- C1, evaluated: handle 3 on a loaded registry of three positions. -/
theorem handle_beyond_registry_rejected_witness :
    isInt32 3 ∧ ((Demo.three.position.length : Int) ≤ 3) ∧
      RM_SetS Demo.arith Demo.manager Demo.three 3 7 = (Demo.three, -1) ∧
      RM_GetSpeedLimit Demo.arith Demo.manager Demo.three 3 = Demo.Number.finite (-1) ∧
      RM_SubtractAFromB Demo.arith Demo.manager Demo.three 0 3 ⟨0, 0, 0⟩ =
        (false, ⟨0, 0, 0⟩) :=
  have h := handle_beyond_registry_rejected Demo.arith Demo.manager Demo.three 3 (by decide)
    (by decide)
  ⟨by decide, by decide, h.2.2.2.1 7, h.2.2.2.2.2.2.2.2.1,
    (h.2.2.2.2.2.2.2.2.2.1 0 ⟨0, 0, 0⟩).2⟩

/-- C10: a negative `int` handle is converted modulo `2^64` by the comparison with the
registry size, so on every registry of fewer than `2^64 - 2^31` positions it is rejected
(every handle-taking function and both static helpers return `-1`, `false` for
`RM_SubtractAFromB`, and the state is unchanged); and whenever the size comparison lets an
`int` handle through, `0 ≤ handle < registry size` and the element accessed is the one at
index `handle`. -/
theorem negative_handle_rejected (A : Arith D F) (E : RoadManager Lib OpenDrive Road Position D)
    (st : State Lib OpenDrive Position) (hsize : st.position.length < 2 ^ 64 - 2 ^ 31) :
    (∀ handle : Int, isInt32 handle → handle < 0 →
      st.position.length ≤ toSizeT handle ∧ Rejected A E st handle) ∧
    (∀ handle : Int, isInt32 handle → ∀ hacc : ¬ st.position.length ≤ toSizeT handle,
      0 ≤ handle ∧ handle < st.position.length ∧
        st.position.get? handle.toNat = some (st.at handle hacc)) := by
  constructor
  · intro handle hint hneg
    have hle : st.position.length ≤ toSizeT handle := by
      have h := toSizeT_of_neg handle (by unfold isInt32 at hint; omega) hneg
      unfold isInt32 at hint
      omega
    exact ⟨hle, rejected_of_guard A E st handle (Or.inr hle)⟩
  · intro handle hint hacc
    have h0 : 0 ≤ handle := by
      by_contra hneg
      have h := toSizeT_of_neg handle (by unfold isInt32 at hint; omega) (by omega)
      unfold isInt32 at hint
      omega
    have heq : toSizeT handle = handle.toNat :=
      toSizeT_of_nonneg handle h0 (by unfold isInt32 at hint; omega)
    refine ⟨h0, by omega, ?_⟩
    unfold State.at
    simp only [heq]
    exact List.get?_eq_get _

/-- C10, evaluated: handle -1 on a loaded registry of three positions. -/
theorem negative_handle_rejected_witness :
    Demo.three.position.length < 2 ^ 64 - 2 ^ 31 ∧
      toSizeT (-1) = 18446744073709551615 ∧
      RM_GetPositionData Demo.arith Demo.manager Demo.three (-1)
          ⟨0, 0, 0, 0, 0, 0, 0, 0, 0, 0, 0⟩ =
        (-1, ⟨0, 0, 0, 0, 0, 0, 0, 0, 0, 0, 0⟩) :=
  have h := (negative_handle_rejected Demo.arith Demo.manager Demo.three (by decide)).1 (-1)
    (by decide)
    (by decide)
  ⟨by decide, by decide, h.2.2.2.2.2.2.1 _⟩

end Guard

/-! ## The registry along a sequence of calls -/

section Registry

variable {Lib OpenDrive Road Position D F : Type}

theorem put_length (st : State Lib OpenDrive Position) (handle : Int) (p : Position) :
    (st.put handle p).position.length = st.position.length := by
  simp [State.put]

theorem put_nil (st : State Lib OpenDrive Position) (handle : Int) (p : Position)
    (h : st.position = []) : (st.put handle p).position = [] := by
  simp [State.put, h]

theorem map_const_some {α β : Type} (o : Option α) (b b1 : β)
    (h : (o.map fun _ => b) = some b1) : b1 = b := by
  cases o with
  | none => simp at h
  | some a => simp at h; exact h.symm

/-- A call other than `RM_Init`, `RM_Close` and `RM_CreatePosition` leaves the state as it
is or assigns to one registry element. -/
theorem step_shape (A : Arith D F) (E : RoadManager Lib OpenDrive Road Position D)
    (st st1 : State Lib OpenDrive Position) (c : Call F) (hc : c.clears = false)
    (hcr : c.creates = false) (h : step A E st c = some st1) :
    st1 = st ∨ ∃ handle p, st1 = st.put handle p := by
  cases c <;> simp only [Call.clears, Call.creates, Bool.true_eq_false] at hc hcr <;>
    simp only [step, Option.some.injEq] at h
  case GetNumberOfRoads => exact Or.inl h.symm
  case GetIdOfRoadFromIndex => exact Or.inl (map_const_some _ _ _ h)
  case GetRoadLength => exact Or.inl (map_const_some _ _ _ h)
  case GetRoadNumberOfLanes => exact Or.inl (map_const_some _ _ _ h)
  case GetLaneIdByIndex => exact Or.inl (map_const_some _ _ _ h)
  case GetLaneInfo => exact Or.inl (map_const_some _ _ _ h)
  case GetPositionData => exact Or.inl h.symm
  case GetSpeedLimit => exact Or.inl h.symm
  case GetSteeringTarget => exact Or.inl h.symm
  case SubtractAFromB => exact Or.inl h.symm
  case SetLanePosition handle roadId laneId laneOffset s align =>
    subst h
    unfold RM_SetLanePosition
    split
    · exact Or.inl rfl
    · exact Or.inr ⟨handle, _, rfl⟩
  case SetWorldPosition handle x y z hd p r =>
    subst h
    unfold RM_SetWorldPosition
    split
    · exact Or.inl rfl
    · exact Or.inr ⟨handle, _, rfl⟩
  case SetWorldXYZHPosition handle x y z hd =>
    subst h
    unfold RM_SetWorldXYZHPosition
    split
    · exact Or.inl rfl
    · exact Or.inr ⟨handle, _, rfl⟩
  case SetS handle s =>
    subst h
    unfold RM_SetS
    split
    · exact Or.inl rfl
    · exact Or.inr ⟨handle, _, rfl⟩
  case PositionMoveForward handle dist strategy =>
    subst h
    unfold RM_PositionMoveForward
    split
    · exact Or.inl rfl
    · exact Or.inr ⟨handle, _, rfl⟩

theorem step_length (A : Arith D F) (E : RoadManager Lib OpenDrive Road Position D)
    (st st1 : State Lib OpenDrive Position) (c : Call F) (hc : c.clears = false)
    (hcr : c.creates = false) (h : step A E st c = some st1) :
    st1.position.length = st.position.length := by
  rcases step_shape A E st st1 c hc hcr h with h1 | ⟨handle, p, h1⟩
  · rw [h1]
  · rw [h1, put_length]

theorem init_position (E : RoadManager Lib OpenDrive Road Position D)
    (st : State Lib OpenDrive Position) (odrFilename : String) :
    (RM_Init E st odrFilename).1.position =
      if st.odrManager.isSome = true then [] else st.position := by
  unfold RM_Init RM_Close
  by_cases h : st.odrManager.isSome = true
  · rw [if_pos h, if_pos h]
    by_cases h2 : (E.LoadOpenDrive st.lib odrFilename).2 = false
    · rw [if_pos h2]
    · rw [if_neg h2]
  · rw [if_neg h, if_neg h]
    by_cases h2 : (E.LoadOpenDrive st.lib odrFilename).2 = false
    · rw [if_pos h2]
    · rw [if_neg h2]

/-- A call other than `RM_CreatePosition` keeps an empty registry empty. -/
theorem step_nil (A : Arith D F) (E : RoadManager Lib OpenDrive Road Position D)
    (st st1 : State Lib OpenDrive Position) (c : Call F) (hcr : c.creates = false)
    (hnil : st.position = []) (h : step A E st c = some st1) : st1.position = [] := by
  by_cases hc : c.clears = true
  · cases c with
    | Init odrFilename =>
      simp only [step, Option.some.injEq] at h
      subst h
      rw [init_position]
      split
      · rfl
      · exact hnil
    | Close =>
      simp only [step, Option.some.injEq] at h
      subst h; rfl
    | _ => simp [Call.clears] at hc
  · rcases step_shape A E st st1 c (by simpa using hc) hcr h with h1 | ⟨handle, p, h1⟩
    · rw [h1]; exact hnil
    · rw [h1]; exact put_nil st handle p hnil

theorem run_nil (A : Arith D F) (E : RoadManager Lib OpenDrive Road Position D) :
    ∀ (cs : List (Call F)) (st st1 : State Lib OpenDrive Position),
      (∀ c ∈ cs, c.creates = false) → st.position = [] → run A E st cs = some st1 →
      st1.position = [] := by
  intro cs
  induction cs with
  | nil =>
    intro st st1 _ hnil h
    simp only [run, Option.some.injEq] at h
    rw [← h]; exact hnil
  | cons c cs ih =>
    intro st st1 hcs hnil h
    simp only [run] at h
    cases hstep : step A E st c with
    | none => rw [hstep] at h; simp at h
    | some st2 =>
      rw [hstep] at h
      exact ih st2 st1 (fun c1 hc1 => hcs c1 (List.mem_cons_of_mem _ hc1))
        (step_nil A E st st2 c (hcs c (List.mem_cons_self _ _)) hnil hstep) h

theorem rejected_of_nil (A : Arith D F) (E : RoadManager Lib OpenDrive Road Position D)
    (st : State Lib OpenDrive Position) (hnil : st.position = []) (handle : Int) :
    Rejected A E st handle := by
  apply rejected_of_guard
  right
  rw [hnil]
  exact Nat.zero_le _


/-- C4: after `RM_Close`, and after `RM_Init` called while a network is loaded, the
position registry is empty; it stays empty along every sequence of calls without
`RM_CreatePosition`, and in every state reached that way every handle is rejected: each
handle-taking function returns its failure value. -/
theorem registry_empty_after_clear (A : Arith D F) (E : RoadManager Lib OpenDrive Road Position D)
    (st : State Lib OpenDrive Position) (odrFilename : String)
    (hloaded : st.odrManager.isSome = true) (cs : List (Call F))
    (hcs : ∀ c ∈ cs, c.creates = false) :
    (RM_Close st).1.position = [] ∧ (RM_Init E st odrFilename).1.position = [] ∧
      ∀ st1, run A E (RM_Close st).1 cs = some st1 ∨
          run A E (RM_Init E st odrFilename).1 cs = some st1 →
        st1.position = [] ∧ ∀ handle, Rejected A E st1 handle := by
  have hinit : (RM_Init E st odrFilename).1.position = [] := by
    rw [init_position, if_pos hloaded]
  refine ⟨rfl, hinit, ?_⟩
  intro st1 h
  have hnil : st1.position = [] := by
    rcases h with h | h
    · exact run_nil A E cs _ st1 hcs rfl h
    · exact run_nil A E cs _ st1 hcs hinit h
  exact ⟨hnil, rejected_of_nil A E st1 hnil⟩

/-- C4, evaluated: a reload and a close on a loaded registry of three positions, then
handle 0. -/
theorem registry_empty_after_clear_witness :
    Demo.three.odrManager.isSome = true ∧
      (RM_Init Demo.manager Demo.three "demo.xodr").1.position = [] ∧
      RM_SetS Demo.arith Demo.manager (RM_Close Demo.three).1 0 5 = ((RM_Close Demo.three).1, -1) :=
  have h := registry_empty_after_clear Demo.arith Demo.manager Demo.three "demo.xodr" rfl []
    (fun _ hc => absurd hc (List.not_mem_nil _))
  ⟨rfl, h.2.1, ((h.2.2 (RM_Close Demo.three).1 (Or.inl rfl)).2 0).2.2.2.1 5⟩

theorem createPosition_position (E : RoadManager Lib OpenDrive Road Position D)
    (st : State Lib OpenDrive Position) :
    (RM_CreatePosition E st).1.position = st.position ++ [E.newPosition] := rfl

theorem createPosition_value (E : RoadManager Lib OpenDrive Road Position D)
    (st : State Lib OpenDrive Position) :
    (RM_CreatePosition E st).2 = toInt32 st.position.length := by
  unfold RM_CreatePosition
  simp

theorem createdHandles_increasing (A : Arith D F) (E : RoadManager Lib OpenDrive Road Position D) :
    ∀ (cs : List (Call F)) (st : State Lib OpenDrive Position),
      (∀ c ∈ cs, c.clears = false) →
      st.position.length + cs.countP Call.creates ≤ 2 ^ 31 →
      List.Pairwise (fun a b => a < b) (createdHandles A E st cs) ∧
        ∀ x ∈ createdHandles A E st cs, (st.position.length : Int) ≤ x := by
  intro cs
  induction cs with
  | nil =>
    intro st _ _
    simp [createdHandles]
  | cons c cs ih =>
    intro st hcs hfit
    have hcs1 : ∀ c1 ∈ cs, c1.clears = false :=
      fun c1 hc1 => hcs c1 (List.mem_cons_of_mem _ hc1)
    have hc : c.clears = false := hcs c (List.mem_cons_self _ _)
    simp only [createdHandles]
    cases hstep : step A E st c with
    | none => simp
    | some st1 =>
      simp only []
      by_cases hcr : c.creates = true
      · rw [if_pos hcr]
        have hcount : (c :: cs).countP Call.creates = cs.countP Call.creates + 1 := by
          rw [List.countP_cons_of_pos _ _ hcr]
        have hst1 : st1 = (RM_CreatePosition E st).1 := by
          cases c <;> simp only [Call.creates, Bool.false_eq_true] at hcr
          simp only [step, Option.some.injEq] at hstep
          exact hstep.symm
        have hlen : st1.position.length = st.position.length + 1 := by
          rw [hst1, createPosition_position]; simp
        have hval : (RM_CreatePosition E st).2 = st.position.length := by
          rw [createPosition_value]
          apply toInt32_of_isInt32
          unfold isInt32
          omega
        obtain ⟨ih1, ih2⟩ := ih st1 hcs1 (by omega)
        rw [hval]
        constructor
        · rw [List.pairwise_cons]
          refine ⟨?_, ih1⟩
          intro x hx
          have := ih2 x hx
          omega
        · intro x hx
          rcases List.mem_cons.mp hx with hx | hx
          · omega
          · have := ih2 x hx
            omega
      · rw [if_neg hcr]
        have hcr1 : c.creates = false := by simpa using hcr
        have hcount : (c :: cs).countP Call.creates = cs.countP Call.creates := by
          rw [List.countP_cons_of_neg _ _ hcr]
        have hlen : st1.position.length = st.position.length :=
          step_length A E st st1 c hc hcr1 hstep
        obtain ⟨ih1, ih2⟩ := ih st1 hcs1 (by omega)
        refine ⟨ih1, ?_⟩
        intro x hx
        have := ih2 x hx
        omega

/-- C3, amended: `RM_CreatePosition` appends one position to the registry (size `n + 1`,
the first `n` positions unchanged); on a registry of size `n < 2^31` it returns `n`; and
in a sequence of calls without `RM_Close` and `RM_Init` during which the registry does not
grow beyond `2^31` positions, the values returned by the successive `RM_CreatePosition`
calls are strictly increasing and at least the initial registry size. -/
theorem createPosition_returns_index (A : Arith D F) (E : RoadManager Lib OpenDrive Road Position D)
    (st : State Lib OpenDrive Position) (cs : List (Call F))
    (hcs : ∀ c ∈ cs, c.clears = false)
    (hfit : st.position.length + cs.countP Call.creates ≤ 2 ^ 31) :
    (RM_CreatePosition E st).1.position = st.position ++ [E.newPosition] ∧
      (st.position.length < 2 ^ 31 → (RM_CreatePosition E st).2 = st.position.length) ∧
      List.Pairwise (fun a b => a < b) (createdHandles A E st cs) ∧
      ∀ x ∈ createdHandles A E st cs, (st.position.length : Int) ≤ x := by
  refine ⟨rfl, ?_, createdHandles_increasing A E cs st hcs hfit⟩
  intro hlt
  rw [createPosition_value]
  apply toInt32_of_isInt32
  unfold isInt32
  omega

/-- C3, evaluated: on a loaded registry of three positions a creation returns 3, and the
values returned by two creations around a setter call are increasing. -/
theorem createPosition_returns_index_witness :
    (RM_CreatePosition Demo.manager Demo.three).2 = 3 ∧
      List.Pairwise (fun a b => a < b) (createdHandles Demo.arith Demo.manager Demo.three
        [Call.CreatePosition, Call.SetS 3 1, Call.CreatePosition]) :=
  have h := createPosition_returns_index Demo.arith Demo.manager Demo.three
    [Call.CreatePosition, Call.SetS 3 1, Call.CreatePosition] (by decide) (by decide)
  ⟨h.2.1 (by decide), h.2.2.1⟩

theorem crowded_length (n : Nat) : (Demo.crowded n).position.length = n := by
  unfold Demo.crowded
  exact List.length_replicate _ _

theorem createdHandles_two (A : Arith D F) (E : RoadManager Lib OpenDrive Road Position D)
    (st : State Lib OpenDrive Position) :
    createdHandles A E st [Call.CreatePosition, Call.CreatePosition] =
      [(RM_CreatePosition E st).2, (RM_CreatePosition E (RM_CreatePosition E st).1).2] := by
  simp [createdHandles, step, Call.creates]

/-- C3 as stated fails: on a registry of `2^31` positions `RM_CreatePosition` returns
`-2^31`, not the registry size, and on a registry of `2^31 - 1` positions two successive
calls return `2^31 - 1` and then `-2^31`, which is not increasing. -/
theorem createPosition_returns_index_counterexample :
    (RM_CreatePosition Demo.manager (Demo.crowded 2147483648)).2 = -2147483648 ∧
      (RM_CreatePosition Demo.manager (Demo.crowded 2147483648)).2 ≠
        ((Demo.crowded 2147483648).position.length : Int) ∧
      createdHandles Demo.arith Demo.manager (Demo.crowded 2147483647)
        [Call.CreatePosition, Call.CreatePosition] = [2147483647, -2147483648] ∧
      ¬ List.Pairwise (fun a b => a < b) (createdHandles Demo.arith Demo.manager
        (Demo.crowded 2147483647)
        [Call.CreatePosition, Call.CreatePosition]) := by
  have h1 : (RM_CreatePosition Demo.manager (Demo.crowded 2147483648)).2 = -2147483648 := by
    rw [createPosition_value, crowded_length]
    decide
  have h2 : (RM_CreatePosition Demo.manager (Demo.crowded 2147483647)).2 = 2147483647 := by
    rw [createPosition_value, crowded_length]
    decide
  have h3 : (RM_CreatePosition Demo.manager
      (RM_CreatePosition Demo.manager (Demo.crowded 2147483647)).1).2 = -2147483648 := by
    rw [createPosition_value, createPosition_position, List.length_append, crowded_length,
      List.length_singleton]
    decide
  have h4 : createdHandles Demo.arith Demo.manager (Demo.crowded 2147483647)
      [Call.CreatePosition, Call.CreatePosition] = [2147483647, -2147483648] :=
    (createdHandles_two Demo.arith Demo.manager (Demo.crowded 2147483647)).trans
      (congrArg₂ (fun a b => [a, b]) h2 h3)
  refine ⟨h1, ?_, h4, ?_⟩
  · rw [h1, crowded_length]
    decide
  · rw [h4]
    decide

end Registry

/-! ## Enumeration of the drivable lanes -/

section Lanes

variable {Lib OpenDrive Road Position D F : Type}

theorem getLaneByIdx_append (ls : LaneSection) (pre rest : List Lane) (lane : Lane)
    (hl : ls.lanes = pre ++ lane :: rest) (hfit : ls.lanes.length < 2 ^ 31) :
    ls.GetLaneByIdx (toInt32 (pre.length : Int)) = some lane := by
  have hlen : pre.length < 2 ^ 31 := by
    rw [hl] at hfit
    simp only [List.length_append, List.length_cons] at hfit
    omega
  rw [toInt32_of_isInt32 _ (by unfold isInt32; omega)]
  unfold LaneSection.GetLaneByIdx
  rw [if_neg (by omega), hl, Int.toNat_ofNat, List.get?_eq_getElem?,
    List.getElem?_append_right (Nat.le_refl _)]
  simp

theorem countDrivable_zero (ls : LaneSection) (i : Int) (n : Int) :
    countDrivable ls 0 i n = some n := rfl

theorem countDrivable_succ (ls : LaneSection) (todo : Nat) (i : Int) (n : Int) :
    countDrivable ls (todo + 1) i n =
      match ls.GetLaneByIdx (toInt32 i) with
      | none => none
      | some lane =>
        if lane.IsDriving = true then countDrivable ls todo (i + 1) (toInt32 (n + 1))
        else countDrivable ls todo (i + 1) n := rfl

theorem findDrivable_zero (ls : LaneSection) (laneIndex : Int) (i : Int) (n : Int) :
    findDrivable ls laneIndex 0 i n = some 0 := rfl

theorem findDrivable_succ (ls : LaneSection) (laneIndex : Int) (todo : Nat) (i : Int)
    (n : Int) :
    findDrivable ls laneIndex (todo + 1) i n =
      match ls.GetLaneByIdx (toInt32 i) with
      | none => none
      | some lane =>
        if lane.IsDriving = true then
          if n = laneIndex then some lane.GetId
          else findDrivable ls laneIndex todo (i + 1) (toInt32 (n + 1))
        else findDrivable ls laneIndex todo (i + 1) n := rfl

theorem countDrivable_spec (ls : LaneSection) (hfit : ls.lanes.length < 2 ^ 31) :
    ∀ (rest pre : List Lane) (n : Int), ls.lanes = pre ++ rest → 0 ≤ n → n ≤ pre.length →
      countDrivable ls rest.length (pre.length : Int) n =
        some (n + ((rest.filter fun lane => lane.IsDriving).length : Int)) := by
  intro rest
  induction rest with
  | nil =>
    intro pre n _ _ _
    rw [List.length_nil, countDrivable_zero]
    simp
  | cons lane rest ih =>
    intro pre n hl h0 hn
    have hlen : pre.length + 1 ≤ ls.lanes.length := by
      rw [hl]; simp
    have hl1 : ls.lanes = (pre ++ [lane]) ++ rest := by
      rw [hl]; simp
    have hpre : ((pre.length : Int) + 1) = ((pre ++ [lane]).length : Int) := by simp
    rw [List.length_cons, countDrivable_succ, getLaneByIdx_append ls pre rest lane hl hfit]
    show (if lane.IsDriving = true then _ else _) = _
    by_cases hd : lane.IsDriving = true
    · rw [if_pos hd, toInt32_of_isInt32 _ (by unfold isInt32; omega), hpre,
        ih (pre ++ [lane]) (n + 1) hl1 (by omega) (by rw [← hpre]; omega)]
      rw [List.filter_cons_of_pos (by simpa using hd)]
      simp only [List.length_cons]
      push_cast
      congr 1
      ring
    · rw [if_neg hd, hpre,
        ih (pre ++ [lane]) n hl1 h0 (by rw [← hpre]; omega)]
      rw [List.filter_cons_of_neg (by simpa using hd)]

theorem findDrivable_spec (ls : LaneSection) (hfit : ls.lanes.length < 2 ^ 31) :
    ∀ (rest pre : List Lane) (n : Int) (k : Nat) (found : Lane), ls.lanes = pre ++ rest →
      0 ≤ n → n ≤ pre.length →
      (rest.filter fun lane => lane.IsDriving).get? k = some found →
      findDrivable ls (n + k) rest.length (pre.length : Int) n = some found.GetId := by
  intro rest
  induction rest with
  | nil =>
    intro pre n k found _ _ _ hk
    simp at hk
  | cons lane rest ih =>
    intro pre n k found hl h0 hn hk
    have hlen : pre.length + 1 ≤ ls.lanes.length := by
      rw [hl]; simp
    have hl1 : ls.lanes = (pre ++ [lane]) ++ rest := by
      rw [hl]; simp
    have hpre : ((pre.length : Int) + 1) = ((pre ++ [lane]).length : Int) := by simp
    rw [List.length_cons, findDrivable_succ, getLaneByIdx_append ls pre rest lane hl hfit]
    show (if lane.IsDriving = true then _ else _) = _
    by_cases hd : lane.IsDriving = true
    · rw [if_pos hd]
      rw [List.filter_cons_of_pos (by simpa using hd)] at hk
      cases k with
      | zero =>
        simp only [List.get?_cons_zero, Option.some.injEq] at hk
        subst hk
        simp
      | succ k =>
        simp only [List.get?_cons_succ] at hk
        rw [if_neg (by push_cast; omega), toInt32_of_isInt32 _ (by unfold isInt32; omega),
          hpre]
        have := ih (pre ++ [lane]) (n + 1) k found hl1 (by omega)
          (by rw [← hpre]; omega) hk
        rw [← this]
        congr 1
        push_cast
        ring
    · rw [if_neg hd, hpre]
      rw [List.filter_cons_of_neg (by simpa using hd)] at hk
      exact ih (pre ++ [lane]) n k found hl1 h0 (by rw [← hpre]; omega) hk

theorem numberOfLanes_eq (A : Arith D F) (E : RoadManager Lib OpenDrive Road Position D)
    (st : State Lib OpenDrive Position) (odr : OpenDrive) (road : Road) (ls : LaneSection)
    (roadId : Int) (s : F) (hodr : st.odrManager = some odr)
    (hroad : E.GetRoadById odr roadId = some road)
    (hls : E.GetLaneSectionByS road (A.widen s) = some ls) (hfit : ls.lanes.length < 2 ^ 31) :
    RM_GetRoadNumberOfLanes A E st roadId s = some (ls.drivable.length : Int) := by
  unfold RM_GetRoadNumberOfLanes
  rw [hodr]
  simp only [hroad, hls, LaneSection.GetNumberOfLanes, Nat.sub_zero]
  have h := countDrivable_spec ls hfit ls.lanes [] 0 rfl (le_refl _) (by simp)
  simp only [List.length_nil, Nat.cast_zero, zero_add] at h
  exact h

theorem laneIdByIndex_eq (A : Arith D F) (E : RoadManager Lib OpenDrive Road Position D)
    (st : State Lib OpenDrive Position) (odr : OpenDrive) (road : Road) (ls : LaneSection)
    (roadId : Int) (s : F) (hodr : st.odrManager = some odr)
    (hroad : E.GetRoadById odr roadId = some road)
    (hls : E.GetLaneSectionByS road (A.widen s) = some ls) (hfit : ls.lanes.length < 2 ^ 31)
    (k : Nat) (found : Lane) (hk : ls.drivable.get? k = some found) :
    RM_GetLaneIdByIndex A E st roadId k s = some found.GetId := by
  unfold RM_GetLaneIdByIndex
  rw [hodr]
  simp only [hroad, hls, LaneSection.GetNumberOfLanes, Nat.sub_zero]
  have h := findDrivable_spec ls hfit ls.lanes [] 0 k found rfl (le_refl _) (by simp) hk
  simp only [List.length_nil, Nat.cast_zero, zero_add] at h
  exact h

/-- C5: for a loaded road and an arc length `s` whose lane section has its lanes
addressable by the `int` lane index, `RM_GetRoadNumberOfLanes` returns the number of
drivable lanes of the lane section at `s`; for every `k` below that number
`RM_GetLaneIdByIndex (road, k, s)` returns the id of the `k`-th drivable lane in the order
of the lane section, so the enumeration over `k` lists the ids of the drivable lanes, each
once and in section order; it is increasing in lane id when the section stores its lanes
in increasing id order; and for the section -2 (driving), -1 (not driving), 0 (reference),
1 (driving) the count is 2, index 0 gives id -2 and index 1 gives id 1. -/
theorem drivable_lane_enumeration (A : Arith D F) (E : RoadManager Lib OpenDrive Road Position D)
    (st : State Lib OpenDrive Position) (odr : OpenDrive) (road : Road) (ls : LaneSection)
    (roadId : Int) (s : F) (hodr : st.odrManager = some odr)
    (hroad : E.GetRoadById odr roadId = some road)
    (hls : E.GetLaneSectionByS road (A.widen s) = some ls) (hfit : ls.lanes.length < 2 ^ 31) :
    RM_GetRoadNumberOfLanes A E st roadId s = some (ls.drivable.length : Int) ∧
      (∀ (k : Nat) (hk : k < ls.drivable.length),
        RM_GetLaneIdByIndex A E st roadId k s = some (ls.drivable.get ⟨k, hk⟩).GetId) ∧
      (List.range ls.drivable.length).map (fun k : Nat => RM_GetLaneIdByIndex A E st roadId k s) =
        (ls.lanes.filter fun lane => lane.IsDriving).map (fun lane => some lane.GetId) ∧
      (List.Pairwise (fun a b => a < b) (ls.lanes.map Lane.GetId) →
        ∀ (j k : Nat) (a b : Int), j < k → k < ls.drivable.length →
          RM_GetLaneIdByIndex A E st roadId j s = some a →
          RM_GetLaneIdByIndex A E st roadId k s = some b → a < b) ∧
      (ls.lanes = [⟨-2, true⟩, ⟨-1, false⟩, ⟨0, false⟩, ⟨1, true⟩] →
        RM_GetRoadNumberOfLanes A E st roadId s = some 2 ∧
        RM_GetLaneIdByIndex A E st roadId 0 s = some (-2) ∧
        RM_GetLaneIdByIndex A E st roadId 1 s = some 1) := by
  have hcount := numberOfLanes_eq A E st odr road ls roadId s hodr hroad hls hfit
  have hidx : ∀ (k : Nat) (hk : k < ls.drivable.length),
      RM_GetLaneIdByIndex A E st roadId k s = some (ls.drivable.get ⟨k, hk⟩).GetId := by
    intro k hk
    exact laneIdByIndex_eq A E st odr road ls roadId s hodr hroad hls hfit k _
      (List.get?_eq_get hk)
  refine ⟨hcount, hidx, ?_, ?_, ?_⟩
  · apply List.ext_get
    · simp [LaneSection.drivable]
    · intro k h1 h2
      have hk : k < ls.drivable.length := by simpa using h1
      simp only [List.get_eq_getElem, List.getElem_map, List.getElem_range]
      rw [hidx k hk]
      rfl
  · intro hsorted j k a b hjk hk hja hkb
    have hj : j < ls.drivable.length := by omega
    rw [hidx j hj] at hja
    rw [hidx k hk] at hkb
    simp only [Option.some.injEq] at hja hkb
    have hp : List.Pairwise (fun a b => a < b) (ls.drivable.map Lane.GetId) := by
      unfold LaneSection.drivable
      exact (List.Pairwise.sublist (List.Sublist.map _ (List.filter_sublist _)) hsorted)
    rw [← hja, ← hkb]
    have := List.pairwise_iff_get.mp hp ⟨j, by simpa using hj⟩ ⟨k, by simpa using hk⟩
      (by simpa using hjk)
    simpa using this
  · intro hlanes
    have hd : ls.drivable = [⟨-2, true⟩, ⟨1, true⟩] := by
      unfold LaneSection.drivable
      rw [hlanes]
      rfl
    refine ⟨?_, ?_, ?_⟩
    · rw [hcount, hd]; rfl
    · exact laneIdByIndex_eq A E st odr road ls roadId s hodr hroad hls hfit 0 ⟨-2, true⟩
        (by rw [hd]; rfl)
    · exact laneIdByIndex_eq A E st odr road ls roadId s hodr hroad hls hfit 1 ⟨1, true⟩
        (by rw [hd]; rfl)

/-- C5, evaluated: road 1 of the demonstration network at `s = 10`, whose lane section is
the one of the scenario. -/
theorem drivable_lane_enumeration_witness :
    Demo.scenarioSection.lanes.length < 2 ^ 31 ∧
      RM_GetRoadNumberOfLanes Demo.arith Demo.manager Demo.loaded 1 10 = some 2 ∧
      RM_GetLaneIdByIndex Demo.arith Demo.manager Demo.loaded 1 0 10 = some (-2) ∧
      RM_GetLaneIdByIndex Demo.arith Demo.manager Demo.loaded 1 1 10 = some 1 :=
  ⟨by decide, (drivable_lane_enumeration Demo.arith Demo.manager Demo.loaded Demo.network
    ⟨1, 100, 1 / 50, Demo.scenarioSection⟩ Demo.scenarioSection 1 10 rfl rfl rfl
    (by decide)).2.2.2.2 rfl⟩

end Lanes

/-! ## Curvature at a lateral offset -/

section Curvature

variable {Lib OpenDrive Road Position D F : Type}

/-- A handle inside the registry of a loaded state passes the guard, and the element
accessed is the one at index `handle`. -/
theorem valid_handle_access (st : State Lib OpenDrive Position) (handle : Int) (pos : Position)
    (hloaded : st.odrManager.isSome = true) (hint : isInt32 handle) (h0 : 0 ≤ handle)
    (hpos : st.position.get? handle.toNat = some pos) :
    ∃ hacc : ¬ st.position.length ≤ toSizeT handle,
      ¬ st.noAccess handle ∧ st.at handle hacc = pos := by
  have heq : toSizeT handle = handle.toNat :=
    toSizeT_of_nonneg handle h0 (by unfold isInt32 at hint; omega)
  obtain ⟨hlt, hget⟩ := List.get?_eq_some.mp hpos
  have hacc : ¬ st.position.length ≤ toSizeT handle := by
    rw [heq]; omega
  refine ⟨hacc, ?_, ?_⟩
  · intro hn
    rcases hn with hn | hn
    · cases hm : st.odrManager with
      | none => rw [hm] at hloaded; simp at hloaded
      | some odr => rw [hm] at hn; simp at hn
    · exact hacc hn
  · unfold State.at
    simp only [heq]
    exact hget

end Curvature

/-! ## Setters, road queries and the state before loading -/

section Queries

variable {Lib OpenDrive Road Position D F : Type}

theorem setS_eq (A : Arith D F) (E : RoadManager Lib OpenDrive Road Position D)
    (st : State Lib OpenDrive Position) (handle : Int) (s : F)
    (hloaded : st.odrManager.isSome = true) (hacc : ¬ st.position.length ≤ toSizeT handle) :
    RM_SetS A E st handle s =
      (st.put handle (E.SetLanePos st.lib (st.at handle hacc) (E.GetTrackId (st.at handle hacc))
        (E.GetLaneId (st.at handle hacc)) (A.widen s) (E.GetOffset (st.at handle hacc))), 0) := by
  have hok : ¬ st.noAccess handle := by
    intro hn
    rcases hn with hn | hn
    · cases hm : st.odrManager with
      | none => rw [hm] at hloaded; simp at hloaded
      | some odr => rw [hm] at hn; simp at hn
    · exact hacc hn
  unfold RM_SetS
  rw [dif_neg hok]

theorem setWorldPosition_eq (A : Arith D F) (E : RoadManager Lib OpenDrive Road Position D)
    (st : State Lib OpenDrive Position) (handle : Int) (x y z h p r : F)
    (hloaded : st.odrManager.isSome = true) (hacc : ¬ st.position.length ≤ toSizeT handle) :
    RM_SetWorldPosition A E st handle x y z h p r =
      (st.put handle (E.SetInertiaPos st.lib (st.at handle hacc) (A.widen x) (A.widen y)
        (A.widen z) (A.widen h) (A.widen p) (A.widen r)), 0) := by
  have hok : ¬ st.noAccess handle := by
    intro hn
    rcases hn with hn | hn
    · cases hm : st.odrManager with
      | none => rw [hm] at hloaded; simp at hloaded
      | some odr => rw [hm] at hn; simp at hn
    · exact hacc hn
  unfold RM_SetWorldPosition
  rw [dif_neg hok]

/-- C8, amended: for a valid handle on a loaded network, `RM_SetS` and
`RM_SetWorldPosition` return 0 whatever the coordinate conversion does: `RM_SetS` hands
the current road id, lane id and offset of the position with the new `s` to `SetLanePos`,
`RM_SetWorldPosition` hands the pose to `SetInertiaPos`, the registry element becomes what
that call leaves and the other elements and the registry size are unchanged; no failure of
the conversion is reported. -/
theorem setters_return_zero (A : Arith D F) (E : RoadManager Lib OpenDrive Road Position D)
    (st : State Lib OpenDrive Position) (handle : Int) (pos : Position) (s x y z h p r : F)
    (hloaded : st.odrManager.isSome = true) (hint : isInt32 handle) (h0 : 0 ≤ handle)
    (hpos : st.position.get? handle.toNat = some pos) :
    RM_SetS A E st handle s =
        (st.put handle (E.SetLanePos st.lib pos (E.GetTrackId pos) (E.GetLaneId pos)
          (A.widen s) (E.GetOffset pos)), 0) ∧
      RM_SetWorldPosition A E st handle x y z h p r =
        (st.put handle (E.SetInertiaPos st.lib pos (A.widen x) (A.widen y) (A.widen z)
          (A.widen h) (A.widen p) (A.widen r)), 0) ∧
      (∀ q : Position, (st.put handle q).position.length = st.position.length ∧
        (st.put handle q).position.get? handle.toNat = some q ∧
        ∀ i : Nat, i ≠ handle.toNat →
          (st.put handle q).position.get? i = st.position.get? i) := by
  obtain ⟨hacc, _, hat⟩ := valid_handle_access st handle pos hloaded hint h0 hpos
  have heq : toSizeT handle = handle.toNat :=
    toSizeT_of_nonneg handle h0 (by unfold isInt32 at hint; omega)
  refine ⟨?_, ?_, ?_⟩
  · rw [setS_eq A E st handle s hloaded hacc, hat]
  · rw [setWorldPosition_eq A E st handle x y z h p r hloaded hacc, hat]
  · intro q
    refine ⟨put_length st handle q, ?_, ?_⟩
    · simp only [State.put, List.get?_eq_getElem?, heq]
      rw [List.getElem?_set_self (by rw [← heq]; exact Nat.lt_of_not_le hacc)]
    · intro i hi
      simp only [State.put, List.get?_eq_getElem?, heq]
      rw [List.getElem?_set_ne (Ne.symm hi)]

/-- C8 amended, evaluated: handle 1 of the demonstration registry, a position without road
association. -/
theorem setters_return_zero_witness :
    Demo.three.position.get? 1 = some ⟨-1, 0, 0, 0, 0⟩ ∧
      (RM_SetS Demo.arith Demo.manager Demo.three 1 5).2 = 0 ∧
      (RM_SetWorldPosition Demo.arith Demo.manager Demo.three 1 1 2 3 0 0 0).2 = 0 :=
  have h := setters_return_zero Demo.arith Demo.manager Demo.three 1 ⟨-1, 0, 0, 0, 0⟩ 5 1 2 3 0
    0 0 rfl
    (by decide) (by decide) rfl
  ⟨rfl, congrArg Prod.snd h.1, congrArg Prod.snd h.2.1⟩

/-- C8 as stated fails: on the loaded demonstration network `RM_CreatePosition` returns
handle 0 for a position without road association (track id -1, not a road of the network),
and `RM_SetS` with that handle returns 0, not a failure value; `RM_SetWorldPosition` on a
position whose projection finds no road leaves the state unchanged and also returns 0. -/
theorem setters_return_zero_counterexample :
    (RM_CreatePosition Demo.manager Demo.loaded).2 = 0 ∧
      Demo.manager.GetTrackId Demo.manager.newPosition = -1 ∧
      Demo.manager.GetRoadById Demo.network (-1) = none ∧
      RM_SetS Demo.arith Demo.manager (RM_CreatePosition Demo.manager Demo.loaded).1 0 5 =
        ((RM_CreatePosition Demo.manager Demo.loaded).1, 0) ∧
      (RM_SetS Demo.arith Demo.manager (RM_CreatePosition Demo.manager Demo.loaded).1 0 5).2 ≠
        -1 ∧
      RM_SetWorldPosition Demo.arith Demo.manager Demo.three 1 1 2 3 0 0 0 = (Demo.three, 0) := by
  have h1 : RM_SetS Demo.arith Demo.manager (RM_CreatePosition Demo.manager Demo.loaded).1 0 5 =
      ((RM_CreatePosition Demo.manager Demo.loaded).1, 0) :=
    (setS_eq Demo.arith Demo.manager (RM_CreatePosition Demo.manager Demo.loaded).1 0 5 rfl
      (by decide)).trans rfl
  refine ⟨by decide, rfl, rfl, h1, ?_, ?_⟩
  · rw [h1]; decide
  · exact (setWorldPosition_eq Demo.arith Demo.manager Demo.three 1 1 2 3 0 0 0 rfl
      (by decide)).trans rfl

/-- C9: on a loaded network the road queries use the result of a failed road lookup. For a
road id for which `GetRoadById` yields the null pointer, `RM_GetRoadLength`,
`RM_GetRoadNumberOfLanes` and `RM_GetLaneIdByIndex` dereference it and return no value;
for a road index for which `GetRoadByIdx` yields the null pointer, so does
`RM_GetIdOfRoadFromIndex`. -/
theorem unknown_road_dereferenced (A : Arith D F) (E : RoadManager Lib OpenDrive Road Position D)
    (st : State Lib OpenDrive Position) (odr : OpenDrive) (hodr : st.odrManager = some odr) :
    (∀ id : Int, E.GetRoadById odr id = none →
      RM_GetRoadLength A E st id = none ∧
      (∀ s, RM_GetRoadNumberOfLanes A E st id s = none) ∧
      (∀ laneIndex s, RM_GetLaneIdByIndex A E st id laneIndex s = none)) ∧
    (∀ index : Int, E.GetRoadByIdx odr index = none →
      RM_GetIdOfRoadFromIndex E st index = none) := by
  constructor
  · intro id hid
    refine ⟨?_, ?_, ?_⟩
    · unfold RM_GetRoadLength
      rw [hodr]
      simp only [hid]
    · intro s
      unfold RM_GetRoadNumberOfLanes
      rw [hodr]
      simp only [hid]
    · intro laneIndex s
      unfold RM_GetLaneIdByIndex
      rw [hodr]
      simp only [hid]
  · intro index hidx
    unfold RM_GetIdOfRoadFromIndex
    rw [hodr]
    simp only [hidx]

/-- C9, evaluated: the demonstration network has the roads 1 and 2; road id 99 and road
index 2 are unknown. -/
theorem unknown_road_dereferenced_witness :
    Demo.manager.GetRoadById Demo.network 99 = none ∧
      RM_GetRoadLength Demo.arith Demo.manager Demo.loaded 99 = none ∧
      RM_GetRoadNumberOfLanes Demo.arith Demo.manager Demo.loaded 99 0 = none ∧
      RM_GetLaneIdByIndex Demo.arith Demo.manager Demo.loaded 99 0 0 = none ∧
      RM_GetIdOfRoadFromIndex Demo.manager Demo.loaded 2 = none :=
  have h := unknown_road_dereferenced Demo.arith Demo.manager Demo.loaded Demo.network rfl
  ⟨rfl, (h.1 99 rfl).1, (h.1 99 rfl).2.1 0, (h.1 99 rfl).2.2 0 0, h.2 2 rfl⟩

/-- C2, amended: before any network has been loaded, every handle-taking function returns
its failure value for every handle (`-1` for the integer-returning ones) and
`RM_GetIdOfRoadFromIndex` returns `-1` for every index, while `RM_GetNumberOfRoads`,
`RM_GetRoadNumberOfLanes` and `RM_GetLaneIdByIndex` return 0 for all arguments. -/
theorem unloaded_results (A : Arith D F) (E : RoadManager Lib OpenDrive Road Position D)
    (st : State Lib OpenDrive Position) (hnone : st.odrManager = none) :
    (∀ handle, Rejected A E st handle) ∧
      (∀ index, RM_GetIdOfRoadFromIndex E st index = some (-1)) ∧
      RM_GetNumberOfRoads E st = 0 ∧
      (∀ roadId s, RM_GetRoadNumberOfLanes A E st roadId s = some 0) ∧
      (∀ roadId laneIndex s, RM_GetLaneIdByIndex A E st roadId laneIndex s = some 0) := by
  refine ⟨?_, ?_, ?_, ?_, ?_⟩
  · intro handle
    apply rejected_of_guard
    left
    rw [hnone]
    rfl
  · intro index
    unfold RM_GetIdOfRoadFromIndex
    rw [hnone]
  · unfold RM_GetNumberOfRoads
    rw [hnone]
  · intro roadId s
    unfold RM_GetRoadNumberOfLanes
    rw [hnone]
  · intro roadId laneIndex s
    unfold RM_GetLaneIdByIndex
    rw [hnone]

/-- C2 amended, evaluated on the state before any call. -/
theorem unloaded_results_witness :
    Demo.initial.odrManager = none ∧
      RM_GetIdOfRoadFromIndex Demo.manager Demo.initial 0 = some (-1) ∧
      RM_GetRoadNumberOfLanes Demo.arith Demo.manager Demo.initial 1 0 = some 0 ∧
      RM_SetS Demo.arith Demo.manager Demo.initial 0 5 = (Demo.initial, -1) :=
  have h := unloaded_results Demo.arith Demo.manager Demo.initial rfl
  ⟨rfl, h.2.1 0, h.2.2.2.1 1 0, (h.1 0).2.2.2.1 5⟩

/-- C2 as stated fails: before any network has been loaded `RM_GetNumberOfRoads`,
`RM_GetRoadNumberOfLanes` and `RM_GetLaneIdByIndex` return 0, not -1. -/
theorem unloaded_results_counterexample :
    Demo.initial.odrManager = none ∧
      RM_GetNumberOfRoads Demo.manager Demo.initial = 0 ∧
      RM_GetNumberOfRoads Demo.manager Demo.initial ≠ -1 ∧
      RM_GetRoadNumberOfLanes Demo.arith Demo.manager Demo.initial 1 0 = some 0 ∧
      RM_GetLaneIdByIndex Demo.arith Demo.manager Demo.initial 1 0 0 = some 0 :=
  ⟨rfl, rfl, by decide, rfl, rfl⟩

end Queries

end RoadManagerDLL
